import Mathlib

set_option maxRecDepth 8000
set_option maxHeartbeats 1000000
set_option linter.unusedVariables false

/-!
Shallow embedding of the Deshavu client-side video library.

Each definition transcribes one function of the repository:
  * the Dexie table wrapper (`services/db.ts`),
  * the auth provider (`hooks/useAuth` source file: `login`, `signup`),
  * the Gemini service (`services/geminiService.ts`),
  * frame extraction and upload submission (`components/VideoUploadModal.tsx`),
  * the application shell (`App`: `handleUpload`, `handleSearch`,
    `displayedVideos`, `loadUserData`).

Calls into the browser or the external AI service are passed in as explicit
oracle arguments (an `Except` value standing for the settled promise, a
`crop` function standing for the canvas face-crop), so that every function
of the program becomes a pure, executable Lean function of its inputs and
of those oracles.
-/

/-- A row of the `users` table (`types.ts`: `User`).  `id` is the
auto-incremented primary key, absent before insertion. -/
structure User where
  id : Option Nat
  email : String
deriving DecidableEq

/-- The `users` table together with the auto-increment counter of the
`++id` Dexie schema (`db.ts`: `users: '++id, &email'`). -/
structure UserDB where
  users : List User
  nextUserId : Nat
deriving DecidableEq

/-- The case-insensitive key Dexie's `equalsIgnoreCase` compares emails by:
the character-wise lowercasing of the string. -/
def emailKey (s : String) : List Char :=
  s.data.map Char.toLower

/-- `db.ts` `getUserByEmail`: `db.users.where('email').equalsIgnoreCase(email).first()`.
Dexie's `equalsIgnoreCase` matches emails up to letter case; `first()` takes
the first matching row. -/
def getUserByEmail (db : UserDB) (email : String) : Option User :=
  (db.users.filter (fun u => emailKey u.email == emailKey email)).head?

/-- `db.ts` `getUserById`: primary-key lookup `db.users.get(id)`. -/
def getUserById (db : UserDB) (id : Nat) : Option User :=
  db.users.find? (fun u => u.id == some id)

/-- `db.ts` `createUser`: `db.users.add({ email })`; Dexie assigns the next
auto-increment key and returns it. -/
def createUser (db : UserDB) (email : String) : UserDB × Nat :=
  ({ users := db.users ++ [{ id := some db.nextUserId, email := email }],
     nextUserId := db.nextUserId + 1 }, db.nextUserId)

/-- JavaScript truthiness of the optional numeric `user.id` field, as tested
by `!user.id`: `undefined` and `0` are falsy. -/
def idTruthy : Option Nat → Bool
  | none => false
  | some n => n != 0

/-- `useAuth` `login(email, password)`: looks the email up locally and throws
when no truthy-id user is found; the password is never inspected. -/
def login (db : UserDB) (email password : String) : Except String User :=
  match getUserByEmail db email with
  | none => Except.error "No account found with this email. Please sign up."
  | some user =>
    if idTruthy user.id then Except.ok user
    else Except.error "No account found with this email. Please sign up."

/-- `useAuth` `signup(email, password)`: throws when the email is taken,
otherwise creates the user, reads it back by id, and throws when the
read-back yields no truthy-id user. -/
def signup (db : UserDB) (email password : String) : Except String (UserDB × User) :=
  match getUserByEmail db email with
  | some _ => Except.error "An account with this email already exists."
  | none =>
    let res := createUser db email
    match getUserById res.1 res.2 with
    | none => Except.error "Failed to create a new user account."
    | some newUser =>
      if idTruthy newUser.id then Except.ok (res.1, newUser)
      else Except.error "Failed to create a new user account."

/-- States reachable through the Dexie `++id` schema: the counter is at
least 1 and every stored row carries a nonzero key below the counter. -/
def wfUserDB (db : UserDB) : Bool :=
  decide (1 ≤ db.nextUserId) && db.users.all (fun u =>
    match u.id with
    | some n => decide (n ≠ 0) && decide (n < db.nextUserId)
    | none => false)

/-- `types.ts` `VideoSegment`. -/
structure VideoSegment where
  timestamp : ℚ
  description : String
deriving DecidableEq

/-- `types.ts` `OnScreenTextSegment`. -/
structure OnScreenTextSegment where
  timestamp : ℚ
  text : String
deriving DecidableEq

/-- `types.ts` `Video`.  The `File` object is kept as an opaque handle. -/
structure Video where
  id : String
  userId : Nat
  name : String
  file : String
  description : String
  duration : ℚ
  faceIds : List String
  segments : List VideoSegment
  transcript : String
  onScreenText : List OnScreenTextSegment
deriving DecidableEq

/-- `types.ts` `Face`. -/
structure Face where
  id : String
  userId : Nat
  name : Option String
  image : String
  description : String
deriving DecidableEq

/-- One entry of `VideoAnalysisResult.faces` (`geminiService.ts`). -/
structure FaceCrop where
  description : String
  image : String
deriving DecidableEq

/-- `geminiService.ts` `VideoAnalysisResult`. -/
structure VideoAnalysisResult where
  description : String
  faces : List FaceCrop
  segments : List VideoSegment
  transcript : String
  onScreenText : List OnScreenTextSegment
deriving DecidableEq

/-- The `videos` and `faces` tables of the Dexie store. -/
structure MediaDB where
  videos : List Video
  faces : List Face
deriving DecidableEq

/-- The face ids generated inside `App.handleUpload`:
`analysisResult.faces.map(faceData => { const faceId = ...; return faceId })`,
with the fresh-id source (`Date.now`/`Math.random`) passed in as `gen`. -/
def mkFaceIds (gen : Nat → String) (crops : List FaceCrop) : List String :=
  crops.enum.map (fun p => gen p.1)

/-- The `Face` rows pushed onto `newFaces` inside `App.handleUpload`. -/
def mkFaces (userId : Nat) (gen : Nat → String) (crops : List FaceCrop) : List Face :=
  crops.enum.map (fun p =>
    { id := gen p.1, userId := userId, name := none,
      image := p.2.image, description := p.2.description })

/-- The `newVideo` record built by `App.handleUpload`. -/
def mkUploadVideo (userId : Nat) (vidId fileName fileHandle : String)
    (ar : VideoAnalysisResult) (duration : ℚ) (gen : Nat → String) : Video :=
  { id := vidId, userId := userId, name := fileName, file := fileHandle,
    description := ar.description, duration := duration,
    faceIds := mkFaceIds gen ar.faces, segments := ar.segments,
    transcript := ar.transcript, onScreenText := ar.onScreenText }

/-- `App.handleUpload`: stores the new faces (when any) and the new video. -/
def handleUpload (userId : Nat) (vidId fileName fileHandle : String)
    (ar : VideoAnalysisResult) (duration : ℚ) (gen : Nat → String)
    (dbm : MediaDB) : MediaDB :=
  { videos := dbm.videos ++ [mkUploadVideo userId vidId fileName fileHandle ar duration gen],
    faces := dbm.faces ++ mkFaces userId gen ar.faces }

/-- The candidate set of `App.handleSearch` (`videosToSearch`): when faces
are selected, keep the videos whose `faceIds` include every selected id. -/
def videosToSearch (videos : List Video) (sel : List String) : List Video :=
  if 0 < sel.length then
    videos.filter (fun v => sel.all (fun faceId => v.faceIds.contains faceId))
  else videos

/-- The descending comparison `(a, b) => b.id.localeCompare(a.id)` of
`App.displayedVideos`, modelled on the code-point order of the ids. -/
def videoIdDesc (a b : Video) : Bool :=
  decide (b.id ≤ a.id)

/-- `App.displayedVideos`: the face-filtered list sorted by descending id. -/
def displayedVideos (videos : List Video) (sel : List String) : List Video :=
  (videosToSearch videos sel).mergeSort videoIdDesc

/-- `types.ts` `ChatMessage.sender`. -/
inductive Sender where
  | user
  | ai
deriving DecidableEq

/-- `types.ts` `ChatMessage`; `videos` is the optional matched-video list. -/
structure ChatMessage where
  id : String
  sender : Sender
  text : String
  videos : Option (List Video)
deriving DecidableEq

/-- `geminiService.ts` `generateChatResponse`, error branch: the canned
fallback reply returned from the `catch`. -/
def fallbackChatResponse (foundVideosCount : Nat) : String :=
  if 0 < foundVideosCount then
    "I found " ++ toString foundVideosCount ++ " video(s) that match your memory."
  else
    "I couldn\x27t find any videos matching that memory."

/-- `geminiService.ts` `findMatchingVideos`.  The oracle `api` is the settled
Gemini call: `Except.error` for a rejected call (or a JSON parse failure
inside the `try`), `Except.ok (some ids)` for a response that parses to an
array of strings, `Except.ok none` for a response that parses to anything
else (the function then logs and returns `[]`). -/
def findMatchingVideos (api : Except String (Option (List String)))
    (videos : List Video) : Except String (List String) :=
  if videos.length == 0 then Except.ok []
  else
    match api with
    | Except.error _ => Except.error "Failed to search videos. Please try again."
    | Except.ok (some ids) => Except.ok ids
    | Except.ok none => Except.ok []

/-- `geminiService.ts` `generateChatResponse`: trims and returns the AI text;
a failing call is caught and replaced by the canned fallback reply. -/
def generateChatResponse (api : Except String String) (foundVideosCount : Nat) :
    Except String String :=
  match api with
  | Except.ok text => Except.ok text.trim
  | Except.error _ => Except.ok (fallbackChatResponse foundVideosCount)

/-- `App.handleSearch`, restricted to its effect on the chat history: append
the user message, then run the search and append the AI message (matched
videos on success, the error text and no videos on failure).  The fresh
message ids are passed in as `idU`, `idA`. -/
def handleSearchChat (history : List ChatMessage) (query : String)
    (videos : List Video) (sel : List String)
    (api1 : Except String (Option (List String))) (api2 : Except String String)
    (idU idA : String) : List ChatMessage :=
  let userMsg : ChatMessage := { id := idU, sender := Sender.user, text := query, videos := none }
  match findMatchingVideos api1 (videosToSearch videos sel) with
  | Except.error e =>
    history ++ [userMsg,
      { id := idA, sender := Sender.ai,
        text := "Sorry, I encountered an error: " ++ e, videos := none }]
  | Except.ok matchingIds =>
    let matchingVideos := videos.filter (fun v => matchingIds.contains v.id)
    match generateChatResponse api2 matchingVideos.length with
    | Except.error e =>
      history ++ [userMsg,
        { id := idA, sender := Sender.ai,
          text := "Sorry, I encountered an error: " ++ e, videos := none }]
    | Except.ok aiText =>
      history ++ [userMsg,
        { id := idA, sender := Sender.ai, text := aiText, videos := some matchingVideos }]

/-- Chat histories built from complete searches: user/assistant pairs where
the user turn never carries videos. -/
def wellFormedChat : List ChatMessage → Bool
  | [] => true
  | [_] => false
  | u :: a :: rest =>
    u.sender == Sender.user && u.videos.isNone && a.sender == Sender.ai &&
      wellFormedChat rest

/-- The normalized face bounding box of the `extractVideoDetails` schema. -/
structure FaceBox where
  yMin : ℚ
  xMin : ℚ
  yMax : ℚ
  xMax : ℚ
deriving DecidableEq

/-- One entry of the `faces` argument returned by the AI function call. -/
structure FaceDetection where
  frameIndex : Int
  description : String
  box : FaceBox
deriving DecidableEq

/-- The validated argument object of the `extractVideoDetails` call. -/
structure AnalysisArgs where
  description : String
  faces : List FaceDetection
  segments : List VideoSegment
  transcript : String
  onScreenText : List OnScreenTextSegment
deriving DecidableEq

/-- The frame fetched by `base64Frames[face.frameIndex]` followed by the
`if (!frame) return null` truthiness guard: `none` when the index is out of
bounds (or negative) or the stored frame string is empty. -/
def frameAt (frames : List String) (i : Int) : Option String :=
  if h : 0 ≤ i ∧ i.toNat < frames.length then
    let s := frames.get ⟨i.toNat, h.2⟩
    if s == "" then none else some s
  else none

/-- The face-crop step of `analyzeVideoContent`: map each reported face to
`null` (missing frame) or its crop, then `filter(Boolean)`.  The canvas crop
is the oracle `crop`. -/
def processFaces (crop : String → FaceBox → String) (frames : List String)
    (dets : List FaceDetection) : List FaceCrop :=
  (dets.map (fun fd =>
    match frameAt frames fd.frameIndex with
    | none => none
    | some frame => some { description := fd.description, image := crop frame fd.box })).filterMap id

/-- `geminiService.ts` `analyzeVideoContent`.  The oracle `api` is the
settled Gemini call: `Except.error` for a rejected call, `Except.ok none`
for a response without a well-formed `extractVideoDetails` function call
(both throws inside the `try` are re-raised by the `catch` as the one fixed
message), `Except.ok (some args)` for a structurally valid call. -/
def analyzeVideoContent (api : Except String (Option AnalysisArgs))
    (crop : String → FaceBox → String) (base64Frames : List String) :
    Except String VideoAnalysisResult :=
  match api with
  | Except.error _ => Except.error "Failed to analyze video content with face detection."
  | Except.ok none => Except.error "Failed to analyze video content with face detection."
  | Except.ok (some args) =>
    if args.description == "" then
      Except.error "Failed to analyze video content with face detection."
    else
      Except.ok { description := args.description,
                  faces := processFaces crop base64Frames args.faces,
                  segments := args.segments,
                  transcript := args.transcript,
                  onScreenText := args.onScreenText }

/-- The seek time of step `i` in `extractFrames`: `i * duration / (frameCount + 1)`
(the loop runs `i = 1 .. frameCount`; here `i` counts from 0, so step `i`
seeks to `(i + 1) * interval`). -/
def seekTime (d : ℚ) (frameCount i : Nat) : ℚ :=
  ((i + 1 : Nat) : ℚ) * (d / ((frameCount + 1 : Nat) : ℚ))

/-- The `for` loop of `extractFrames`: `count` remaining sequential
`captureFrameAt(i * interval)` steps starting at index `i`.  The oracle
`seek` is one seek-and-capture: `Except.ok` with the captured frame, or
`Except.error` when the 2-second seek timeout fires first. -/
def captureGo (seek : ℚ → Except String String) (interval : ℚ) :
    Nat → Nat → Except String (List String)
  | 0, _ => Except.ok []
  | count + 1, i =>
    match seek ((i : ℚ) * interval) with
    | Except.error e => Except.error e
    | Except.ok f =>
      match captureGo seek interval count (i + 1) with
      | Except.error e => Except.error e
      | Except.ok fs => Except.ok (f :: fs)

/-- `VideoUploadModal.tsx` `extractFrames`: reject on a zero or non-finite
metadata duration (`dur = none` models a non-finite `video.duration`),
otherwise capture `frameCount` frames sequentially at `i * interval`,
`i = 1 .. frameCount`, propagating the first seek timeout. -/
def extractFrames (seek : ℚ → Except String String) (dur : Option ℚ)
    (frameCount : Nat) : Except String (List String × ℚ) :=
  match dur with
  | none => Except.error "Video has no duration or is invalid."
  | some d =>
    if d = 0 then Except.error "Video has no duration or is invalid."
    else
      match captureGo seek (d / ((frameCount + 1 : Nat) : ℚ)) frameCount 1 with
      | Except.error e => Except.error e
      | Except.ok frames => Except.ok (frames, d)

/-- One awaited step of an async function body: a single awaited call, or a
`Promise.all` over a list of simultaneously started calls. -/
inductive AsyncStep where
  | call (name : String)
  | parAll (names : List String)
deriving DecidableEq

/-- The groups of calls an operation runs in parallel: the children of each
`Promise.all` node, in order. -/
def parGroups (steps : List AsyncStep) : List (List String) :=
  steps.foldr (fun st acc =>
    match st with
    | AsyncStep.call _ => acc
    | AsyncStep.parAll names => names :: acc) []

/-- Await structure of `App.loadUserData`: one `Promise.all` pair of reads. -/
def loadUserDataShape : List AsyncStep :=
  [AsyncStep.parAll ["db.getVideosForUser", "db.getFacesForUser"]]

/-- Await structure of `App.handleUpload` (the `addFaces` call only happens
when at least one face was detected). -/
def handleUploadShape (numFaces : Nat) : List AsyncStep :=
  (if 0 < numFaces then [AsyncStep.call "db.addFaces"] else []) ++
    [AsyncStep.call "db.addVideo", AsyncStep.call "loadUserData"]

/-- Await structure of `App.handleSearch`. -/
def handleSearchShape : List AsyncStep :=
  [AsyncStep.call "findMatchingVideos", AsyncStep.call "generateChatResponse"]

/-- Await structure of `useAuth.login`. -/
def loginShape : List AsyncStep := [AsyncStep.call "getUserByEmail"]

/-- Await structure of `useAuth.signup`. -/
def signupShape : List AsyncStep :=
  [AsyncStep.call "getUserByEmail", AsyncStep.call "createUser",
   AsyncStep.call "getUserById"]

/-- Await structure of `useAuth`'s `checkLoggedInUser` effect. -/
def checkLoggedInUserShape : List AsyncStep := [AsyncStep.call "getUserById"]

/-- Await structure of the `extractFrames` capture loop: `frameCount`
sequential awaited seeks. -/
def extractFramesShape (frameCount : Nat) : List AsyncStep :=
  List.replicate frameCount (AsyncStep.call "captureFrameAt")

/-- Await structure of `VideoUploadModal.handleSubmit`. -/
def handleSubmitShape (frameCount : Nat) : List AsyncStep :=
  extractFramesShape frameCount ++
    [AsyncStep.call "analyzeVideoContent", AsyncStep.call "onUpload"]

/-- Await structure of `geminiService.findMatchingVideos`. -/
def findMatchingVideosShape : List AsyncStep :=
  [AsyncStep.call "ai.models.generateContent"]

/-- Await structure of `geminiService.generateChatResponse`. -/
def generateChatResponseShape : List AsyncStep :=
  [AsyncStep.call "ai.models.generateContent"]

/-- Await structure of `geminiService.analyzeVideoContent`: one awaited API
call, then `Promise.all` over one `cropFace` per reported face. -/
def analyzeVideoContentShape (numFaces : Nat) : List AsyncStep :=
  [AsyncStep.call "ai.models.generateContent",
   AsyncStep.parAll (List.replicate numFaces "cropFace")]

/-- Await structure of `App.handleNameFace`. -/
def handleNameFaceShape : List AsyncStep := [AsyncStep.call "db.updateFaceName"]

/-- Concrete sample data used by the witness theorems. -/
def sampleVideo : Video :=
  { id := "vid-1", userId := 7, name := "clip.mp4", file := "clip.mp4",
    description := "a walk in the park", duration := 3, faceIds := ["face-1"],
    segments := [], transcript := "", onScreenText := [] }

/-- A second sample video without the sample face. -/
def sampleVideo2 : Video :=
  { sampleVideo with id := "vid-2", faceIds := [] }

/-- A one-user store in a reachable Dexie state. -/
def sampleUserDB : UserDB :=
  { users := [{ id := some 1, email := "Alice@Example.com" }], nextUserId := 2 }

/-- A seek oracle that always captures the same frame. -/
def seekAlwaysOk : ℚ → Except String String := fun _ => Except.ok "FRAME"

/-- A seek oracle that succeeds before time 1 and times out from then on. -/
def seekTimesOutLate : ℚ → Except String String :=
  fun t => if t < 1 then Except.ok "FRAME" else Except.error "Seek timed out"

/-- `App.loadUserData`, restricted to its error surface: a failure of either
parallel store read is caught and surfaced as one fixed plain string. -/
def loadUserDataError (videosResult : Except String (List Video))
    (facesResult : Except String (List Face)) : Option String :=
  match videosResult, facesResult with
  | Except.ok _, Except.ok _ => none
  | _, _ => some "Could not load user data from the database."

/-- `App.handleNameFace`: awaits `db.updateFaceName` with no `try`/`catch`
(and its caller catches nothing either), then renames the face in the
in-memory list; a store rejection propagates out of the handler uncaught,
with no UI string. -/
def handleNameFace (dbResult : Except String Nat) (faces : List Face)
    (faceId newName : String) : Except String (List Face) :=
  match dbResult with
  | Except.error e => Except.error e
  | Except.ok _ =>
    Except.ok (faces.map (fun face =>
      if face.id == faceId then { face with name := some newName } else face))

/-- `VideoUploadModal.handleSubmit`, restricted to its error surface: frame
extraction and analysis failures are caught into an `Analysis failed:`
string, but the `onUpload` call is not awaited, so the upload promise (the
store writes of `App.handleUpload`) never reaches the `catch`: its outcome
is ignored. -/
def handleSubmitError (extractResult : Except String (List String × ℚ))
    (analysisResult : Except String VideoAnalysisResult)
    (uploadResult : Except String Unit) : Option String :=
  match extractResult with
  | Except.error e => some ("Analysis failed: " ++ e)
  | Except.ok fr =>
    if fr.1.length == 0 then
      some ("Analysis failed: " ++ "Could not extract frames from the video.")
    else
      match analysisResult with
      | Except.error e => some ("Analysis failed: " ++ e)
      | Except.ok _ => none

/-- A sample analysis result used by the witness theorems. -/
def sampleAnalysis : VideoAnalysisResult :=
  { description := "a walk in the park", faces := [], segments := [],
    transcript := "", onScreenText := [] }

/-- Decidable equality of settled promises, used to evaluate the witness
statements on concrete inputs. -/
instance {ε α : Type} [DecidableEq ε] [DecidableEq α] : DecidableEq (Except ε α) := fun a b =>
  match a, b with
  | Except.ok x, Except.ok y =>
    if h : x = y then isTrue (by rw [h]) else
      isFalse (fun hc => h (Except.ok.inj hc))
  | Except.error x, Except.error y =>
    if h : x = y then isTrue (by rw [h]) else
      isFalse (fun hc => h (Except.error.inj hc))
  | Except.ok _, Except.error _ => isFalse (fun hc => Except.noConfusion hc)
  | Except.error _, Except.ok _ => isFalse (fun hc => Except.noConfusion hc)

/-! ## Helper lemmas -/

/-- A successful email lookup returns a stored row whose email matches the
searched email up to case. -/
theorem getUserByEmail_mem {db : UserDB} {e : String} {u : User}
    (h : getUserByEmail db e = some u) :
    u ∈ db.users ∧ emailKey u.email = emailKey e := by
  unfold getUserByEmail at h
  rcases hf : db.users.filter (fun x => emailKey x.email == emailKey e) with _ | ⟨x, xs⟩
  · rw [hf] at h
    simp at h
  · rw [hf] at h
    simp only [List.head?_cons, Option.some.injEq] at h
    have hx : x ∈ db.users.filter (fun v => emailKey v.email == emailKey e) := by
      rw [hf]
      exact List.mem_cons_self _ _
    have hm := List.mem_filter.mp hx
    exact h ▸ ⟨hm.1, by simpa using hm.2⟩

/-- Unpacking of the reachable-store invariant. -/
theorem wfUserDB_spec {db : UserDB} (hwf : wfUserDB db = true) :
    1 ≤ db.nextUserId ∧
      ∀ u ∈ db.users, ∃ n, u.id = some n ∧ n ≠ 0 ∧ n < db.nextUserId := by
  unfold wfUserDB at hwf
  have hparts := (Bool.and_eq_true _ _).mp hwf
  refine ⟨of_decide_eq_true hparts.1, ?_⟩
  intro u hu
  have hall := List.all_eq_true.mp hparts.2 u hu
  cases hid : u.id with
  | none =>
    rw [hid] at hall
    simp at hall
  | some n =>
    rw [hid] at hall
    simp at hall
    exact ⟨n, rfl, hall.1, hall.2⟩

/-- On a reachable store, signing up a fresh email appends the created row
and returns it. -/
theorem signup_ok_of_new {db : UserDB} {email : String} (pw : String)
    (h2 : ∀ u ∈ db.users, ∃ n, u.id = some n ∧ n ≠ 0 ∧ n < db.nextUserId)
    (h1 : 1 ≤ db.nextUserId)
    (hx : getUserByEmail db email = none) :
    signup db email pw = Except.ok
      ({ users := db.users ++ [{ id := some db.nextUserId, email := email }],
         nextUserId := db.nextUserId + 1 },
       { id := some db.nextUserId, email := email }) := by
  have hnone : db.users.find? (fun u => u.id == some db.nextUserId) = none := by
    apply List.find?_eq_none.mpr
    intro u hu
    obtain ⟨n, hn, _, hlt⟩ := h2 u hu
    rw [hn]
    simp
    omega
  have hid : idTruthy (some db.nextUserId) = true := by
    simp [idTruthy]
    omega
  simp only [signup, hx, createUser, getUserById]
  rw [List.find?_append, hnone]
  simp [List.find?, hid]

/-! ## Claim theorems -/

/-- Claim C1: the `login` operation is a local lookup of the email only; its
outcome is the same for any two password arguments, on every store state. -/
theorem login_independent_of_password (db : UserDB) (email p1 p2 : String) :
    login db email p1 = login db email p2 := rfl

/-- Claim C2: on every reachable store, `login` rejects exactly when the
email-index lookup finds no user, and otherwise returns the record found;
`signup` rejects exactly when a user with the email exists (the read-back of
the created user never fails on a reachable store), and otherwise returns
the newly created record, appended to the table. -/
theorem auth_failure_complementary (db : UserDB) (email pw : String)
    (hwf : wfUserDB db = true) :
    ((login db email pw).isOk = false ↔ getUserByEmail db email = none)
    ∧ (∀ u, login db email pw = Except.ok u → getUserByEmail db email = some u)
    ∧ ((signup db email pw).isOk = false ↔ (getUserByEmail db email).isSome = true)
    ∧ (∀ r, signup db email pw = Except.ok r →
        r.2 = { id := some db.nextUserId, email := email } ∧
        r.1.users = db.users ++ [r.2] ∧
        getUserByEmail db email = none) := by
  obtain ⟨h1, h2⟩ := wfUserDB_spec hwf
  cases hx : getUserByEmail db email with
  | none =>
    have hsig := signup_ok_of_new pw h2 h1 hx
    refine ⟨?_, ?_, ?_, ?_⟩
    · simp [login, hx, Except.isOk, Except.toBool]
    · intro v hv
      simp [login, hx] at hv
    · rw [hsig]
      simp [Except.isOk, Except.toBool]
    · intro r hr
      rw [hsig] at hr
      injection hr with hr
      subst hr
      exact ⟨rfl, rfl, rfl⟩
  | some u =>
    obtain ⟨hu_mem, _⟩ := getUserByEmail_mem hx
    obtain ⟨n, hn, hn0, _⟩ := h2 u hu_mem
    have hid : idTruthy u.id = true := by
      rw [hn]
      simpa [idTruthy] using hn0
    have hlog : login db email pw = Except.ok u := by
      simp [login, hx, hid]
    refine ⟨?_, ?_, ?_, ?_⟩
    · rw [hlog]
      simp [Except.isOk, Except.toBool]
    · intro v hv
      rw [hlog] at hv
      injection hv with hv
      rw [hv]
    · simp [signup, hx, Except.isOk, Except.toBool]
    · intro r hr
      simp [signup, hx] at hr

/-- Witness for C2 at a concrete store: login with an unregistered email
rejects. -/
theorem auth_failure_complementary_witness :
    (login sampleUserDB "nobody@example.com" "pw").isOk = false :=
  (auth_failure_complementary sampleUserDB "nobody@example.com" "pw"
    (by decide)).1.mpr (by decide)

/-- Claim C9: the email lookup ignores letter case, so login outcomes agree
on any two casings of an email, and signup rejects an email that matches a
stored account up to case. -/
theorem email_case_insensitive (db : UserDB) (e1 e2 pw : String)
    (h : emailKey e1 = emailKey e2) :
    getUserByEmail db e1 = getUserByEmail db e2
    ∧ login db e1 pw = login db e2 pw
    ∧ (∀ u ∈ db.users, emailKey u.email = emailKey e1 →
        (signup db e1 pw).isOk = false) := by
  have hget : getUserByEmail db e1 = getUserByEmail db e2 := by
    unfold getUserByEmail
    rw [h]
  refine ⟨hget, ?_, ?_⟩
  · unfold login
    rw [hget]
  · intro u hu hmail
    have hmem : u ∈ db.users.filter (fun x => emailKey x.email == emailKey e1) :=
      List.mem_filter.mpr ⟨hu, by simp [hmail]⟩
    rcases hf : db.users.filter (fun x => emailKey x.email == emailKey e1) with _ | ⟨x, xs⟩
    · rw [hf] at hmem
      simp at hmem
    · have hsome : getUserByEmail db e1 = some x := by
        simp [getUserByEmail, hf]
      simp [signup, hsome, Except.isOk, Except.toBool]

/-- Witness for C9 at a concrete store: the lookup agrees on two casings of
a registered email. -/
theorem email_case_insensitive_witness :
    getUserByEmail sampleUserDB "alice@example.com" =
      getUserByEmail sampleUserDB "ALICE@EXAMPLE.COM" :=
  (email_case_insensitive sampleUserDB "alice@example.com" "ALICE@EXAMPLE.COM"
    "pw" (by decide)).1

/-- Claim C5: a successful upload appends exactly one video record carrying
the uploaded file, the AI description, the measured duration, the segments,
the transcript and the on-screen text, owned by the current user; and every
face id listed in it belongs to a face stored by the same upload with the
same user id. -/
theorem upload_record_integrity (userId : Nat) (vidId fileName fileHandle : String)
    (ar : VideoAnalysisResult) (duration : ℚ) (gen : Nat → String) (dbm : MediaDB) :
    (handleUpload userId vidId fileName fileHandle ar duration gen dbm).videos
      = dbm.videos ++ [mkUploadVideo userId vidId fileName fileHandle ar duration gen]
    ∧ (mkUploadVideo userId vidId fileName fileHandle ar duration gen).file = fileHandle
    ∧ (mkUploadVideo userId vidId fileName fileHandle ar duration gen).description = ar.description
    ∧ (mkUploadVideo userId vidId fileName fileHandle ar duration gen).duration = duration
    ∧ (mkUploadVideo userId vidId fileName fileHandle ar duration gen).segments = ar.segments
    ∧ (mkUploadVideo userId vidId fileName fileHandle ar duration gen).transcript = ar.transcript
    ∧ (mkUploadVideo userId vidId fileName fileHandle ar duration gen).onScreenText = ar.onScreenText
    ∧ (mkUploadVideo userId vidId fileName fileHandle ar duration gen).userId = userId
    ∧ (mkUploadVideo userId vidId fileName fileHandle ar duration gen).faceIds.all
        (fun fid => (handleUpload userId vidId fileName fileHandle ar duration gen dbm).faces.any
          (fun f => f.id == fid && f.userId == userId)) = true := by
  refine ⟨rfl, rfl, rfl, rfl, rfl, rfl, rfl, rfl, ?_⟩
  apply List.all_eq_true.mpr
  intro fid hfid
  simp only [mkUploadVideo, mkFaceIds, List.mem_map] at hfid
  obtain ⟨p, hp, hgen⟩ := hfid
  apply List.any_eq_true.mpr
  refine ⟨{ id := gen p.1, userId := userId, name := none,
            image := p.2.image, description := p.2.description }, ?_, ?_⟩
  · simp only [handleUpload]
    apply List.mem_append_right
    simp only [mkFaces, List.mem_map]
    exact ⟨p, hp, rfl⟩
  · simp [hgen]

/-- Claim C10: the face-crop step keeps exactly the reported faces whose
frame reference passes the lookup-and-truthiness guard, and builds each kept
crop from that existing frame; every face with an invalid frame index is
dropped. -/
theorem invalid_frame_faces_dropped (crop : String → FaceBox → String)
    (frames : List String) (dets : List FaceDetection) :
    processFaces crop frames dets =
      (dets.filter (fun fd => (frameAt frames fd.frameIndex).isSome)).map
        (fun fd => { description := fd.description,
                     image := crop ((frameAt frames fd.frameIndex).getD "") fd.box }) := by
  induction dets with
  | nil => rfl
  | cons fd rest ih =>
    cases hf : frameAt frames fd.frameIndex with
    | none =>
      simpa [processFaces, List.filterMap_cons, hf, List.filter_cons] using ih
    | some frame =>
      simpa [processFaces, List.filterMap_cons, hf, List.filter_cons] using ih

/-- Counterexample to C3: a failing AI call inside `generateChatResponse` is
not surfaced as an error; the call resolves successfully with a canned
substitute reply. -/
theorem generateChatResponse_substitutes_on_error :
    (generateChatResponse (Except.error "API down") 1).isOk = true
    ∧ generateChatResponse (Except.error "API down") 1 =
        Except.ok (fallbackChatResponse 1) :=
  ⟨rfl, rfl⟩

/-- Claim C3 (amended): where an error from the external AI service or the
local store is caught, it is surfaced as a plain string with no retry —
`findMatchingVideos` and `analyzeVideoContent` rethrow fixed error strings,
`handleSearch` and `handleSubmit` catch them into plain UI strings, and
`loadUserData` catches store read failures into a fixed plain string — with
three exceptions: `generateChatResponse` substitutes a canned fallback reply
in place of an error for its failing AI call, `handleNameFace` never catches
its store rejection (it propagates with no UI string), and the store writes
of `handleUpload` escape `handleSubmit`'s catch because `onUpload` is not
awaited, so their failure produces no error message at all. -/
theorem error_surface_amended (e : String) (vids : List Video)
    (crop : String → FaceBox → String) (frames : List String) (n : Nat)
    (history : List ChatMessage) (query : String) (videos : List Video)
    (sel : List String) (api2 : Except String String) (idU idA : String)
    (vr : Except String (List Video)) (fr : Except String (List Face))
    (ar : VideoAnalysisResult) (ur : Except String Unit)
    (fs : List String) (d : ℚ) (faces : List Face) (faceId fname : String)
    (h1 : vids ≠ []) (hfs : fs ≠ []) :
    findMatchingVideos (Except.error e) vids =
      Except.error "Failed to search videos. Please try again."
    ∧ analyzeVideoContent (Except.error e) crop frames =
      Except.error "Failed to analyze video content with face detection."
    ∧ generateChatResponse (Except.error e) n = Except.ok (fallbackChatResponse n)
    ∧ (videosToSearch videos sel ≠ [] →
        handleSearchChat history query videos sel (Except.error e) api2 idU idA =
          history ++
            [{ id := idU, sender := Sender.user, text := query, videos := none },
             { id := idA, sender := Sender.ai,
               text := "Sorry, I encountered an error: " ++
                 "Failed to search videos. Please try again.",
               videos := none }])
    ∧ loadUserDataError (Except.error e) fr =
        some "Could not load user data from the database."
    ∧ loadUserDataError vr (Except.error e) =
        some "Could not load user data from the database."
    ∧ handleSubmitError (Except.error e) (Except.ok ar) ur =
        some ("Analysis failed: " ++ e)
    ∧ handleNameFace (Except.error e) faces faceId fname = Except.error e
    ∧ handleSubmitError (Except.ok (fs, d)) (Except.ok ar) (Except.error e) = none := by
  have hlen : (vids.length == 0) = false := by
    cases vids with
    | nil => exact absurd rfl h1
    | cons a l => rfl
  have hlenfs : (fs.length == 0) = false := by
    cases fs with
    | nil => exact absurd rfl hfs
    | cons a l => rfl
  refine ⟨by simp [findMatchingVideos, hlen], rfl, rfl, ?_, ?_, ?_, rfl, rfl, ?_⟩
  · intro h2
    have hfm : findMatchingVideos (Except.error e) (videosToSearch videos sel) =
        Except.error "Failed to search videos. Please try again." := by
      rcases hvs : videosToSearch videos sel with _ | ⟨a, l⟩
      · exact absurd hvs h2
      · rfl
    simp [handleSearchChat, hfm]
  · cases fr <;> rfl
  · cases vr <;> rfl
  · simp [handleSubmitError, hlenfs]

/-- Witness for C3 (amended) at concrete inputs: a failed search call on a
nonempty candidate list yields the fixed error string. -/
theorem error_surface_amended_witness :
    findMatchingVideos (Except.error "boom") [sampleVideo] =
      Except.error "Failed to search videos. Please try again." :=
  (error_surface_amended "boom" [sampleVideo] (fun _ _ => "") [] 0 [] "q" [] []
    (Except.ok "t") "u" "a" (Except.ok []) (Except.ok []) sampleAnalysis
    (Except.ok ()) ["F"] 1 [] "face-1" "Bob" (by decide) (by decide)).1

/-- Concatenation distributes over the parallel-group collection. -/
theorem parGroups_append (l1 l2 : List AsyncStep) :
    parGroups (l1 ++ l2) = parGroups l1 ++ parGroups l2 := by
  induction l1 with
  | nil => rfl
  | cons s rest ih =>
    cases s with
    | call name => simpa [parGroups] using ih
    | parAll names => simp [parGroups] at ih ⊢; rw [ih]

/-- A sequence of plain awaited calls runs nothing in parallel. -/
theorem parGroups_replicate_call (name : String) (m : Nat) :
    parGroups (List.replicate m (AsyncStep.call name)) = [] := by
  induction m with
  | zero => rfl
  | succ m ih => simpa [List.replicate, parGroups] using ih

/-- Counterexample to C8: `analyzeVideoContent` also runs promises in
parallel — one `cropFace` per reported face under a `Promise.all` — so the
videos/faces pair in `loadUserData` is not the only parallel fetch. -/
theorem parallel_crop_counterexample :
    parGroups (analyzeVideoContentShape 2) = [["cropFace", "cropFace"]]
    ∧ parGroups (analyzeVideoContentShape 2) ≠ []
    ∧ analyzeVideoContentShape 2 ≠ loadUserDataShape := by
  refine ⟨by decide, by decide, by decide⟩

/-- Claim C8 (amended): concurrency is limited to sequential awaits plus
exactly two parallel constructs — the videos/faces read pair of
`loadUserData`, and the per-face `cropFace` batch of `analyzeVideoContent`;
every other operation runs no promises in parallel. -/
theorem parallel_structure_amended (k : Nat) :
    parGroups loadUserDataShape = [["db.getVideosForUser", "db.getFacesForUser"]]
    ∧ parGroups (analyzeVideoContentShape k) = [List.replicate k "cropFace"]
    ∧ parGroups (handleUploadShape k) = []
    ∧ parGroups handleSearchShape = []
    ∧ parGroups loginShape = []
    ∧ parGroups signupShape = []
    ∧ parGroups checkLoggedInUserShape = []
    ∧ parGroups (extractFramesShape k) = []
    ∧ parGroups (handleSubmitShape k) = []
    ∧ parGroups findMatchingVideosShape = []
    ∧ parGroups generateChatResponseShape = []
    ∧ parGroups handleNameFaceShape = [] := by
  refine ⟨rfl, rfl, ?_, rfl, rfl, rfl, rfl, ?_, ?_, rfl, rfl, rfl⟩
  · by_cases h : 0 < k <;> simp [handleUploadShape, h, parGroups]
  · exact parGroups_replicate_call _ _
  · unfold handleSubmitShape extractFramesShape
    rw [parGroups_append, parGroups_replicate_call]
    rfl

/-- Claim C6: with a nonempty face selection, both the displayed library and
the chat-search candidate set are exactly the videos whose `faceIds` contain
every selected id; with no selection both are all the loaded videos; and the
displayed list is ordered by descending video id. -/
theorem face_filter_spec (videos : List Video) (sel : List String) (v : Video) :
    (sel ≠ [] →
      ((v ∈ videosToSearch videos sel ↔
          v ∈ videos ∧ ∀ fid ∈ sel, fid ∈ v.faceIds)
       ∧ (v ∈ displayedVideos videos sel ↔
          v ∈ videos ∧ ∀ fid ∈ sel, fid ∈ v.faceIds)))
    ∧ videosToSearch videos [] = videos
    ∧ (v ∈ displayedVideos videos [] ↔ v ∈ videos)
    ∧ List.Pairwise (fun a b => b.id ≤ a.id) (displayedVideos videos sel) := by
  have hmem : ∀ s : List String,
      v ∈ displayedVideos videos s ↔ v ∈ videosToSearch videos s :=
    fun s => List.mem_mergeSort
  have hnil : videosToSearch videos [] = videos := by
    simp [videosToSearch]
  refine ⟨?_, hnil, ?_, ?_⟩
  · intro hne
    have hchar : v ∈ videosToSearch videos sel ↔
        v ∈ videos ∧ ∀ fid ∈ sel, fid ∈ v.faceIds := by
      unfold videosToSearch
      rw [if_pos (List.length_pos.mpr hne)]
      simp [List.mem_filter, List.all_eq_true, List.contains, List.elem_iff]
    exact ⟨hchar, (hmem sel).trans hchar⟩
  · rw [hmem, hnil]
  · have htrans : ∀ a b c : Video, videoIdDesc a b = true →
        videoIdDesc b c = true → videoIdDesc a c = true := by
      intro a b c hab hbc
      simp only [videoIdDesc, decide_eq_true_eq] at hab hbc ⊢
      exact le_trans hbc hab
    have htot : ∀ a b : Video, (videoIdDesc a b || videoIdDesc b a) = true := by
      intro a b
      simp only [videoIdDesc, Bool.or_eq_true, decide_eq_true_eq]
      exact le_total b.id a.id
    have hsorted := List.sorted_mergeSort htrans htot (videosToSearch videos sel)
    exact hsorted.imp (fun h => by
      simpa only [videoIdDesc, decide_eq_true_eq] using h)

/-- Witness for C6 at concrete inputs: with the sample face selected, the
video carrying it is displayed. -/
theorem face_filter_spec_witness :
    sampleVideo ∈ displayedVideos [sampleVideo, sampleVideo2] ["face-1"] :=
  (((face_filter_spec [sampleVideo, sampleVideo2] ["face-1"] sampleVideo).1
    (by decide)).2).mpr (by decide)

/-- Appending one user/assistant pair preserves and reflects chat
well-formedness. -/
theorem wellFormedChat_append_pair :
    ∀ (l : List ChatMessage) (u a : ChatMessage),
      wellFormedChat (l ++ [u, a]) =
        (wellFormedChat l &&
          (u.sender == Sender.user && u.videos.isNone && (a.sender == Sender.ai)))
  | [], u, a => by simp [wellFormedChat]
  | [x], u, a => by simp [wellFormedChat]
  | x :: y :: rest, u, a => by
    have ih := wellFormedChat_append_pair rest u a
    simp [wellFormedChat, ih, Bool.and_assoc]

/-- Claim C7: every search appends exactly two messages to the history — a
user message carrying the query, then an assistant message, which carries
the matched videos exactly when the search succeeded — and the appended pair
preserves the alternating user/assistant shape in which only assistant
messages carry videos. -/
theorem search_appends_two_messages (history : List ChatMessage) (query : String)
    (videos : List Video) (sel : List String)
    (api1 : Except String (Option (List String))) (api2 : Except String String)
    (idU idA : String) :
    (∃ aiMsg : ChatMessage,
      handleSearchChat history query videos sel api1 api2 idU idA =
        history ++
          [{ id := idU, sender := Sender.user, text := query, videos := none }, aiMsg]
      ∧ aiMsg.sender = Sender.ai
      ∧ ((findMatchingVideos api1 (videosToSearch videos sel)).isOk = false →
          aiMsg.videos = none)
      ∧ (∀ ids, findMatchingVideos api1 (videosToSearch videos sel) = Except.ok ids →
          aiMsg.videos = some (videos.filter (fun v => ids.contains v.id))))
    ∧ (wellFormedChat history = true →
        wellFormedChat (handleSearchChat history query videos sel api1 api2 idU idA) = true) := by
  cases hfm : findMatchingVideos api1 (videosToSearch videos sel) with
  | error e =>
    simp only [handleSearchChat, hfm]
    constructor
    · refine ⟨{ id := idA, sender := Sender.ai,
                text := "Sorry, I encountered an error: " ++ e, videos := none },
        rfl, rfl, fun _ => rfl, ?_⟩
      intro ids hids
      exact absurd hids (by simp)
    · intro hwf
      rw [wellFormedChat_append_pair, hwf]
      rfl
  | ok ids =>
    have hgen : ∀ (a : Except String String) (m : Nat),
        ∃ t, generateChatResponse a m = Except.ok t := by
      intro a m
      cases a with
      | ok t => exact ⟨t.trim, rfl⟩
      | error e2 => exact ⟨fallbackChatResponse m, rfl⟩
    obtain ⟨t, ht⟩ :=
      hgen api2 (videos.filter (fun v => ids.contains v.id)).length
    simp only [handleSearchChat, hfm, ht]
    constructor
    · refine ⟨{ id := idA, sender := Sender.ai, text := t,
                videos := some (videos.filter (fun v => ids.contains v.id)) },
        rfl, rfl, ?_, ?_⟩
      · intro hcontra
        exact absurd hcontra (by simp [Except.isOk, Except.toBool])
      · intro ids2 hids2
        injection hids2 with hids2
        rw [hids2]
    · intro hwf
      rw [wellFormedChat_append_pair, hwf]
      rfl

/-- Witness for C7 at concrete inputs: a successful search over the sample
library produces a well-formed two-message extension of the empty history. -/
theorem search_appends_two_messages_witness :
    wellFormedChat (handleSearchChat [] "park" [sampleVideo] []
      (Except.ok (some ["vid-1"])) (Except.ok "Right this way.") "m1" "m2") = true :=
  (search_appends_two_messages [] "park" [sampleVideo] []
    (Except.ok (some ["vid-1"])) (Except.ok "Right this way.") "m1" "m2").2 rfl

/-- When every seek succeeds, the capture loop returns one frame per step,
captured at consecutive multiples of the interval. -/
theorem captureGo_ok (seek : ℚ → Except String String) (interval : ℚ)
    (f : ℚ → String) (hs : ∀ t, seek t = Except.ok (f t)) :
    ∀ (count i : Nat), captureGo seek interval count i =
      Except.ok ((List.range count).map (fun j => f (((i + j : Nat) : ℚ) * interval)))
  | 0, i => by simp [captureGo]
  | count + 1, i => by
    have ih := captureGo_ok seek interval f hs count (i + 1)
    simp only [captureGo, hs, ih]
    congr 1
    rw [List.range_succ_eq_map, List.map_cons, List.map_map]
    congr 1
    apply List.map_congr_left
    intro a ha
    simp only [Function.comp_apply, Nat.succ_eq_add_one]
    congr 1
    push_cast
    ring

/-- The capture loop propagates the first seek timeout. -/
theorem captureGo_error (seek : ℚ → Except String String) (interval : ℚ)
    (g : Nat → String) (e : String) :
    ∀ (k count i : Nat), k < count →
      (∀ l, l < k → seek (((i + l : Nat) : ℚ) * interval) = Except.ok (g l)) →
      seek (((i + k : Nat) : ℚ) * interval) = Except.error e →
      captureGo seek interval count i = Except.error e
  | 0, count, i, hk, hok, hfail => by
    cases count with
    | zero => omega
    | succ m =>
      have h0 : seek ((i : ℚ) * interval) = Except.error e := by
        simpa using hfail
      simp [captureGo, h0]
  | k + 1, count, i, hk, hok, hfail => by
    cases count with
    | zero => omega
    | succ m =>
      have h0 : seek ((i : ℚ) * interval) = Except.ok (g 0) := by
        simpa using hok 0 (Nat.succ_pos k)
      have ih := captureGo_error seek interval (fun l => g (l + 1)) e k m (i + 1)
        (by omega)
        (fun l hl => by
          have h := hok (l + 1) (by omega)
          simpa [show i + 1 + l = i + (l + 1) from by omega] using h)
        (by simpa [show i + 1 + k = i + (k + 1) from by omega] using hfail)
      simp [captureGo, h0, ih]

/-- Claim C4: for a finite positive duration, frame extraction captures
exactly `n` frames sequentially at times `i * duration / (n + 1)` for
`i = 1 .. n`, which are strictly increasing; it rejects a non-finite or zero
duration, and it rejects as soon as one guarded seek times out. -/
theorem extractFrames_spec (seek seekT : ℚ → Except String String)
    (f : ℚ → String) (g : Nat → String) (d : ℚ) (n k : Nat) (e : String)
    (hd : 0 < d)
    (hs : ∀ t, seek t = Except.ok (f t))
    (hk : k < n)
    (hok : ∀ l, l < k → seekT (seekTime d n l) = Except.ok (g l))
    (hfail : seekT (seekTime d n k) = Except.error e) :
    extractFrames seek (some d) n =
      Except.ok (((List.range n).map (fun j => f (seekTime d n j))), d)
    ∧ (∀ i j, i < j → seekTime d n i < seekTime d n j)
    ∧ extractFrames seek none n = Except.error "Video has no duration or is invalid."
    ∧ extractFrames seek (some 0) n = Except.error "Video has no duration or is invalid."
    ∧ extractFrames seekT (some d) n = Except.error e := by
  have hne : d ≠ 0 := ne_of_gt hd
  have heq : ∀ j : Nat,
      ((1 + j : Nat) : ℚ) * (d / ((n + 1 : Nat) : ℚ)) = seekTime d n j := by
    intro j
    unfold seekTime
    congr 1
    push_cast
    ring
  refine ⟨?_, ?_, rfl, ?_, ?_⟩
  · have h1 := captureGo_ok seek (d / ((n + 1 : Nat) : ℚ)) f hs n 1
    simp only [extractFrames, if_neg hne, h1]
    congr 1
    congr 1
    apply List.map_congr_left
    intro j hj
    rw [heq j]
  · intro i j hij
    unfold seekTime
    have hpos : (0 : ℚ) < d / ((n + 1 : Nat) : ℚ) := by
      apply div_pos hd
      exact_mod_cast Nat.succ_pos n
    have hcast : ((i + 1 : Nat) : ℚ) < ((j + 1 : Nat) : ℚ) := by
      exact_mod_cast Nat.succ_lt_succ hij
    exact mul_lt_mul_of_pos_right hcast hpos
  · simp [extractFrames]
  · have herr := captureGo_error seekT (d / ((n + 1 : Nat) : ℚ)) g e k n 1 hk
      (fun l hl => by
        rw [heq l]
        exact hok l hl)
      (by
        rw [heq k]
        exact hfail)
    simp only [extractFrames, if_neg hne, herr]

/-- Witness for C4 at concrete inputs: on a 2-second video with two frames
requested, a seek oracle that times out from time 1 on makes extraction
reject with the timeout error. -/
theorem extractFrames_spec_witness :
    extractFrames seekTimesOutLate (some 2) 2 = Except.error "Seek timed out" := by
  have hok : ∀ l, l < 1 →
      seekTimesOutLate (seekTime 2 2 l) = Except.ok ((fun _ => "FRAME") l) := by
    intro l hl
    have hl0 : l = 0 := Nat.lt_one_iff.mp hl
    subst hl0
    have ht : seekTime 2 2 0 = 2 / 3 := by norm_num [seekTime]
    rw [ht]
    unfold seekTimesOutLate
    rw [if_pos (by norm_num : (2 / 3 : ℚ) < 1)]
  have hfail : seekTimesOutLate (seekTime 2 2 1) = Except.error "Seek timed out" := by
    have ht : seekTime 2 2 1 = 4 / 3 := by norm_num [seekTime]
    rw [ht]
    unfold seekTimesOutLate
    rw [if_neg (by norm_num : ¬ (4 / 3 : ℚ) < 1)]
  exact (extractFrames_spec seekAlwaysOk seekTimesOutLate
    (fun _ => "FRAME") (fun _ => "FRAME") 2 2 1 "Seek timed out"
    (by norm_num) (fun t => rfl) (by norm_num) hok hfail).2.2.2.2
